import Mathlib

/-!
Verification of the Sigmaris persona-core per-turn pipeline.

Shallow embedding of `sigmaris-core/persona_core` (Python) in Lean 4:

* `persona_core/state/global_state_machine.py`  — `GlobalStateMachine.decide`
* `persona_core/trait/trait_drift_engine.py`    — `TraitDriftEngine.apply`
* `persona_core/persona_modules/value_drift_engine.py` — `ValueDriftEngine.step`
* `persona_core/memory/selective_recall.py`     — `SelectiveRecall`
* `persona_core/memory/ambiguity_resolver.py`   — `AmbiguityResolver.resolve`
* `persona_core/memory/memory_orchestrator.py`  — `MemoryOrchestrator.select_for_request`

Python floats are modelled as `ℚ`; raised exceptions of external
collaborators (embedding model, memory backend) are modelled with `Option`
(`none` = the call raised).  Heterogeneous debug dictionaries
(`meta` / `notes` / `raw`) are not modelled: no claim mentions their
contents.  Wall-clock timestamps are not modelled.
-/

-- ============================================================
-- Generic helpers: substring test (Python `in` on str) and the
-- stable descending sort performed by `sorted(key=..., reverse=True)`.
-- ============================================================

/-- Helper: `headMatches needle hay` = `hay` starts with `needle` (on char lists). -/
def headMatches : List Char → List Char → Bool
  | [], _ => true
  | _ :: _, [] => false
  | a :: as, b :: bs => a = b && headMatches as bs

/-- Helper: `hasSub needle hay` = `needle` occurs contiguously inside `hay`. -/
def hasSub (needle : List Char) : List Char → Bool
  | [] => needle.isEmpty
  | c :: rest => headMatches needle (c :: rest) || hasSub needle rest

/-- Python `needle in hay` on strings. -/
def strContains (hay needle : String) : Bool :=
  hasSub needle.data hay.data

/-- Python `any(m in hay for m in ms)`. -/
def containsAny (hay : String) (ms : List String) : Bool :=
  ms.any (fun m => strContains hay m)

/-- Python `str.lower()`, char by char. -/
def strLower (s : String) : String :=
  ⟨s.data.map Char.toLower⟩

/-- One step of the stable descending insertion used to model Python's
stable `sorted(key=key, reverse=True)`: an element is placed before the
first element whose key is `≤` its own, i.e. after all strictly larger
keys and before equal keys (preserving original order among ties). -/
def insertDescBy {α : Type} (key : α → ℚ) (a : α) : List α → List α
  | [] => [a]
  | x :: xs => if key a < key x then x :: insertDescBy key a xs else a :: x :: xs

/-- Stable sort, descending by `key`; models Python's
`sorted(items, key=key, reverse=True)` / `list.sort(key=key, reverse=True)`. -/
def sortDescBy {α : Type} (key : α → ℚ) : List α → List α
  | [] => []
  | a :: rest => insertDescBy key a (sortDescBy key rest)

/-- Descending sortedness predicate: every later element has a key `≤`
every earlier one. -/
def SortedDesc {α : Type} (key : α → ℚ) (l : List α) : Prop :=
  l.Pairwise (fun a b => key b ≤ key a)

-- ============================================================
-- Core data types (persona_core/types/core_types.py,
-- persona_core/memory/episode_store.py)
-- ============================================================

/-- Source `PersonaRequest` (core_types.py).  The `metadata`/`context` dict is not
modelled; the pipeline components verified here read only `message`. -/
structure PersonaRequest where
  user_id : String
  session_id : String
  message : String
  locale : String
  deriving Repr, DecidableEq

/-- Source `MemoryPointer` (core_types.py). -/
structure MemoryPointer where
  episode_id : String
  source : String
  score : ℚ
  summary : Option String
  deriving Repr, DecidableEq

/-- Source `Episode` (memory/episode_store.py).  Only the fields read by
`SelectiveRecall` are modelled (`episode_id`, `summary`); `timestamp`,
`emotion_hint`, `traits_hint`, `raw_context` and `embedding` are never
read by the verified pipeline. -/
structure Episode where
  episode_id : String
  summary : String
  deriving Repr, DecidableEq

/-- Source `MemorySelectionResult` (memory/memory_orchestrator.py); the `raw`
debug dict is not modelled. -/
structure MemorySelectionResult where
  pointers : List MemoryPointer
  merged_summary : Option String
  deriving Repr, DecidableEq

/-- The `identity_context` dict built by
`IdentityContinuityEngineV3.build_identity_context`
(identity/identity_continuity.py): keys `topic_label`,
`has_past_context`, `anchor_hint`, `memory_preview`. -/
structure IdentityContext where
  topic_label : String
  has_past_context : Bool
  anchor_hint : Option String
  memory_preview : Option String
  deriving Repr, DecidableEq

/-- Source `IdentityContinuityResult` (identity/identity_continuity.py); the
`notes` debug dict is not modelled. -/
structure IdentityContinuityResult where
  identity_context : IdentityContext
  used_anchors : List String
  deriving Repr, DecidableEq

/-- The `IdentityContinuityResult` dataclass has no `topic_label`
attribute and the program never sets one dynamically, so
`getattr(identity, "topic_label", None)` in
`GlobalStateMachine.decide` / `_estimate_reflective_need` always yields
`None`. -/
def getattrTopicLabel (_i : IdentityContinuityResult) : Option String :=
  none

/-- Modelled from the spec: the `ValueState` record of
`persona_core/value/value_drift_engine.py` is absent from the sources
(only its importers are present).  Spec §3: "value axes: stability,
openness, safety_bias, user_alignment", each a float axis.  The
consumers present in the sources read `stability`, `openness` and
`safety_bias` and reconstruct all four axes from snapshots. -/
structure ValueState where
  stability : ℚ
  openness : ℚ
  safety_bias : ℚ
  user_alignment : ℚ
  deriving Repr, DecidableEq

/-- Source `TraitState` (trait/trait_drift_engine.py): axes calm / empathy /
curiosity. -/
structure TraitState where
  calm : ℚ
  empathy : ℚ
  curiosity : ℚ
  deriving Repr, DecidableEq

/-- Source `TraitVector` (core_types.py): calm / empathy / curiosity, used by the
`persona_modules` value-drift engine in the 0..1 range. -/
structure TraitVector where
  calm : ℚ
  empathy : ℚ
  curiosity : ℚ
  deriving Repr, DecidableEq

/-- Source `RewardSignal` (core_types.py).  `value` is the scalar reward
(`global_reward` is a property alias for it); `trait_reward` optionally
carries per-axis rewards.  `reason`/`meta`/`detail` are not modelled. -/
structure RewardSignal where
  value : ℚ
  trait_reward : Option TraitVector
  deriving Repr, DecidableEq

-- ============================================================
-- Global State Machine (state/global_state_machine.py)
-- ============================================================

/-- Source `PersonaGlobalState` (global_state_machine.py lines 23-28). -/
inductive PersonaGlobalState where
  | NORMAL
  | REFLECTIVE
  | OVERLOADED
  | SAFETY_LOCK
  | SILENT
  deriving Repr, DecidableEq

/-- Source `GlobalStateContext` (global_state_machine.py); the `meta` debug dict
is not modelled. -/
structure GlobalStateContext where
  state : PersonaGlobalState
  prev_state : Option PersonaGlobalState
  reasons : List String
  deriving Repr, DecidableEq

/-- Source `GlobalStateMachine.__init__` threshold fields. -/
structure GlobalStateMachine where
  overload_threshold : ℚ
  high_safety_bias_threshold : ℚ
  low_calm_threshold : ℚ
  high_calm_threshold : ℚ
  high_curiosity_threshold : ℚ
  deriving Repr, DecidableEq

/-- Constructor defaults of `GlobalStateMachine`. -/
def defaultGlobalStateMachine : GlobalStateMachine :=
  { overload_threshold := 3/4
    high_safety_bias_threshold := 3/5
    low_calm_threshold := -2/5
    high_calm_threshold := 2/5
    high_curiosity_threshold := 1/2 }

namespace GlobalStateMachine

/-- Topic markers of `_estimate_reflective_need` step (2). -/
def reflectiveMarkers : List String :=
  ["構造", "整理", "まとめ", "振り返り", "考察",
   "分析", "analysis", "structure", "reason", "理由", "why"]

/-- Source `GlobalStateMachine._estimate_reflective_need`. -/
def estimate_reflective_need (m : GlobalStateMachine) (req : PersonaRequest)
    (memory : MemorySelectionResult) (identity : IdentityContinuityResult)
    (value_state : ValueState) (trait_state : TraitState) : ℚ :=
  let score₀ : ℚ := 0
  -- 1) memory pointers
  let n := memory.pointers.length
  let score₁ :=
    if n ≥ 5 then score₀ + 7/10
    else if 3 ≤ n ∧ n ≤ 4 then score₀ + 1/2
    else if 1 ≤ n ∧ n ≤ 2 then score₀ + 1/5
    else score₀
  -- 2) identity topic_label (getattr yields None; see `getattrTopicLabel`)
  let topic := strLower ((getattrTopicLabel identity).getD "")
  let score₂ :=
    if containsAny topic reflectiveMarkers then score₁ + 3/5 else score₁
  -- 3) trait state
  let score₃ :=
    if trait_state.calm ≥ m.high_calm_threshold then score₂ + 3/10
    else if trait_state.calm ≤ m.low_calm_threshold then score₂ - 1/5
    else score₂
  let score₄ :=
    if trait_state.curiosity ≥ m.high_curiosity_threshold then score₃ + 3/10
    else score₃
  -- 4) value state
  let score₅ := score₄ + max 0 value_state.safety_bias * (2/5)
  let score₆ := score₅ + max 0 value_state.stability * (1/5)
  -- 5) message length
  let L := req.message.length
  if L ≥ 400 then score₆ + 1/5
  else if L ≥ 200 then score₆ + 1/10
  else score₆

/-- Source `GlobalStateMachine.decide`.  The `reasons` strings that interpolate
floats with `:.2f` are modelled without the numeric rendering. -/
def decide (m : GlobalStateMachine) (req : PersonaRequest)
    (memory : MemorySelectionResult) (identity : IdentityContinuityResult)
    (value_state : ValueState) (trait_state : TraitState)
    (safety_flag : Option String) (overload_score : Option ℚ)
    (prev_state : Option PersonaGlobalState) : GlobalStateContext :=
  let reflective_score :=
    estimate_reflective_need m req memory identity value_state trait_state
  -- 1) safety first
  let safetyHit := safety_flag = some "escalated" ∨ safety_flag = some "blocked"
      ∨ safety_flag = some "intervened"
  let (chosen₁, reasons₁) :=
    if safetyHit then
      (PersonaGlobalState.SAFETY_LOCK,
       ["safety_flag=" ++ (safety_flag.getD "") ++ " → SAFETY_LOCK"])
    else if value_state.safety_bias ≥ m.high_safety_bias_threshold then
      (PersonaGlobalState.SAFETY_LOCK,
       ["value_state.safety_bias >= high_safety_bias_threshold"])
    else (PersonaGlobalState.NORMAL, [])
  -- 2) overload, only when safety did not fire
  let (chosen₂, reasons₂) :=
    if chosen₁ ≠ PersonaGlobalState.SAFETY_LOCK then
      match overload_score with
      | some o =>
          if o ≥ m.overload_threshold then
            (PersonaGlobalState.OVERLOADED,
             reasons₁ ++ ["overload_score >= overload_threshold"])
          else (chosen₁, reasons₁)
      | none => (chosen₁, reasons₁)
    else (chosen₁, reasons₁)
  -- 3) reflective, after safety / overload
  let (chosen₃, reasons₃) :=
    if chosen₂ ≠ PersonaGlobalState.SAFETY_LOCK ∧
        chosen₂ ≠ PersonaGlobalState.OVERLOADED then
      if reflective_score ≥ 1 then
        (PersonaGlobalState.REFLECTIVE,
         reasons₂ ++ ["reflective_score >= 1.0 → REFLECTIVE"])
      else (chosen₂, reasons₂)
    else (chosen₂, reasons₂)
  { state := chosen₃, prev_state := prev_state, reasons := reasons₃ }

end GlobalStateMachine

-- ============================================================
-- Trait Drift Engine (trait/trait_drift_engine.py)
-- ============================================================

/-- Source `TraitDriftEngine.__init__` fields (`learning_rate`, `max_abs_value`,
`decay_rate`). -/
structure TraitDriftEngine where
  lr : ℚ
  limit : ℚ
  decay : ℚ
  deriving Repr, DecidableEq

/-- Constructor defaults: `learning_rate=0.01`, `max_abs_value=1.0`,
`decay_rate=0.0005`. -/
def defaultTraitDriftEngine : TraitDriftEngine :=
  { lr := 1/100, limit := 1, decay := 1/2000 }

/-- The per-axis delta dict built by `apply`
(`{k: 0.0 for k in new_state.to_dict().keys()}` and the `deltas[k] += dv`
updates), as an ordered association list. -/
abbrev Deltas := List (String × ℚ)

/-- Python `getattr(state, k)` for the three trait axes. -/
def getAxis (s : TraitState) (k : String) : ℚ :=
  if k = "calm" then s.calm
  else if k = "empathy" then s.empathy
  else if k = "curiosity" then s.curiosity
  else 0

/-- Python `setattr(state, k, v)` for the three trait axes. -/
def setAxis (s : TraitState) (k : String) (v : ℚ) : TraitState :=
  if k = "calm" then { s with calm := v }
  else if k = "empathy" then { s with empathy := v }
  else if k = "curiosity" then { s with curiosity := v }
  else s

/-- Python `deltas[k] += dv`. -/
def deltaAdd (ds : Deltas) (k : String) (dv : ℚ) : Deltas :=
  ds.map fun p => if p.1 = k then (p.1, p.2 + dv) else p

/-- Python `deltas[k]` lookup. -/
def deltaGet (ds : Deltas) (k : String) : ℚ :=
  ((ds.find? fun p => p.1 = k).map Prod.snd).getD 0

/-- The mutation pattern shared by every influence helper of
`TraitDriftEngine`: `state.k += dv; deltas[k] += dv`. -/
def bump (sd : TraitState × Deltas) (k : String) (dv : ℚ) : TraitState × Deltas :=
  (setAxis sd.1 k (getAxis sd.1 k + dv), deltaAdd sd.2 k dv)

/-- The `affect_signal` dict read by `_apply_affect_influence`
(keys `tension`, `warmth`, `curiosity`, missing keys and `None`
values read as `0.0`).  A falsy (absent or empty) signal is `none`; an
empty dict behaves identically to the all-zero record because every
influence is guarded by `!= 0.0`. -/
structure Affect where
  tension : ℚ
  warmth : ℚ
  curiosity : ℚ
  deriving Repr, DecidableEq

/-- Snapshot record assembled by
`TraitDriftEngine._store_snapshot_if_supported` (its `payload` / `meta`
dicts).  The wall-clock timestamp added by `PersonaDB` is not modelled. -/
structure TraitSnapshotRecord where
  user_id : Option String
  state : List (String × ℚ)
  delta : Deltas
  request_preview : String
  memory_pointer_count : ℕ
  identity_topic_label : String
  deriving Repr, DecidableEq

/-- The persona database handle passed to `TraitDriftEngine.apply`
(`persona_db.PersonaDB`-like).  `supports_trait_snapshot` models the
`hasattr(db, "store_trait_snapshot")` duck-typing check;
`trait_snapshots` is the stored trait-snapshot log
(`PersonaDB._append_record` appends a record). -/
structure PersonaDB where
  supports_trait_snapshot : Bool
  trait_snapshots : List TraitSnapshotRecord
  deriving Repr, DecidableEq

/-- The per-turn inputs of `TraitDriftEngine.apply` other than `current`. -/
structure TraitTurnInput where
  req : PersonaRequest
  memory : MemorySelectionResult
  identity : IdentityContinuityResult
  value_state : ValueState
  affect_signal : Option Affect
  db : Option PersonaDB
  user_id : Option String
  deriving Repr, DecidableEq

/-- Source `TraitDriftResult` (`notes` dict not modelled). -/
structure TraitDriftResult where
  new_state : TraitState
  delta : Deltas
  deriving Repr, DecidableEq

namespace TraitDriftEngine

/-- Source `_apply_decay`: for each key of the delta dict,
`dv = -v * decay; state.k = v + dv; deltas[k] += dv`. -/
def apply_decay (eng : TraitDriftEngine) (sd : TraitState × Deltas) :
    TraitState × Deltas :=
  (sd.2.map Prod.fst).foldl
    (fun acc k => bump acc k (-(getAxis acc.1 k) * eng.decay)) sd

/-- Negative-topic markers of `_apply_identity_influence`. -/
def negTopicMarkers : List String :=
  ["衝突", "トラブル", "喧嘩", "conflict", "fight", "problem"]

/-- Source `_apply_identity_influence`. -/
def apply_identity_influence (eng : TraitDriftEngine)
    (sd : TraitState × Deltas) (identity : IdentityContinuityResult) :
    TraitState × Deltas :=
  let ctx := identity.identity_context
  let has_past := ctx.has_past_context
  let topic := strLower ctx.topic_label
  let base := eng.lr
  let sd₁ := if has_past then bump sd "calm" (base * (3/10)) else sd
  if containsAny topic negTopicMarkers then
    bump sd₁ "calm" (-(base * (2/5)))
  else sd₁

/-- Source `_apply_memory_influence`. -/
def apply_memory_influence (eng : TraitDriftEngine)
    (sd : TraitState × Deltas) (memory : MemorySelectionResult) :
    TraitState × Deltas :=
  let count := memory.pointers.length
  let base := eng.lr
  if count ≥ 3 then bump sd "empathy" (base * (2/5))
  else if 1 ≤ count ∧ count ≤ 2 then bump sd "empathy" (base * (1/5))
  else sd

/-- Source `_apply_value_influence`. -/
def apply_value_influence (eng : TraitDriftEngine)
    (sd : TraitState × Deltas) (value_state : ValueState) :
    TraitState × Deltas :=
  let base := eng.lr
  let sd₁ :=
    if value_state.openness > 0 then
      bump sd "curiosity" (base * (1/2) * value_state.openness)
    else sd
  if value_state.safety_bias > 0 then
    bump (bump sd₁ "calm" (base * (2/5) * value_state.safety_bias))
      "curiosity" (-(base * (3/10) * value_state.safety_bias))
  else sd₁

/-- Source `_apply_affect_influence`. -/
def apply_affect_influence (eng : TraitDriftEngine)
    (sd : TraitState × Deltas) (affect_signal : Option Affect) :
    TraitState × Deltas :=
  match affect_signal with
  | none => sd
  | some a =>
      let base := eng.lr
      let sd₁ :=
        if a.tension ≠ 0 then bump sd "calm" (-(base * (1/2) * a.tension)) else sd
      let sd₂ :=
        if a.warmth ≠ 0 then bump sd₁ "empathy" (base * (3/5) * a.warmth) else sd₁
      if a.curiosity ≠ 0 then
        bump sd₂ "curiosity" (base * (7/10) * a.curiosity)
      else sd₂

/-- Clamp one value into `[-limit, +limit]` (`_clip_state` body). -/
def clipQ (limit v : ℚ) : ℚ :=
  if v > limit then limit else if v < -limit then -limit else v

/-- Source `_clip_state`: clamp every axis into `[-limit, +limit]`. -/
def clip_state (eng : TraitDriftEngine) (s : TraitState) : TraitState :=
  { calm := clipQ eng.limit s.calm
    empathy := clipQ eng.limit s.empathy
    curiosity := clipQ eng.limit s.curiosity }

/-- Source `_store_snapshot_if_supported`: no-op when `db is None` or the db has
no `store_trait_snapshot`; otherwise appends a snapshot record.
Exceptions raised by the store are swallowed (`try/except: pass`);
the stored record is as in the source's `payload`. -/
def store_snapshot_if_supported (db : Option PersonaDB)
    (user_id : Option String) (state : TraitState) (deltas : Deltas)
    (req : PersonaRequest) (memory : MemorySelectionResult)
    (identity : IdentityContinuityResult) : Option PersonaDB :=
  match db with
  | none => none
  | some d =>
      if d.supports_trait_snapshot then
        some { d with trait_snapshots := d.trait_snapshots ++
          [{ user_id := user_id
             state := [("calm", state.calm), ("empathy", state.empathy),
                       ("curiosity", state.curiosity)]
             delta := deltas
             request_preview := req.message.take 80
             memory_pointer_count := memory.pointers.length
             identity_topic_label := identity.identity_context.topic_label }] }
      else some d

/-- Steps 1-5 of `apply` (everything before `_clip_state`), acting on the
freshly copied state and the zero-initialised delta dict. -/
def pipeline (eng : TraitDriftEngine) (current : TraitState)
    (i : TraitTurnInput) : TraitState × Deltas :=
  -- deep copy (`new_state = TraitState(calm=current.calm, ...)`)
  let new_state : TraitState :=
    { calm := current.calm, empathy := current.empathy,
      curiosity := current.curiosity }
  let deltas : Deltas := [("calm", 0), ("empathy", 0), ("curiosity", 0)]
  let sd := apply_decay eng (new_state, deltas)
  let sd := apply_identity_influence eng sd i.identity
  let sd := apply_memory_influence eng sd i.memory
  let sd := apply_value_influence eng sd i.value_state
  apply_affect_influence eng sd i.affect_signal

/-- Outcome of one `apply` call.  `current_after` is the value of the
object passed as `current` once the call returns: the source copies
`current` field-by-field into `new_state` and every subsequent write
targets the copy, so the caller's object is left untouched. -/
structure ApplyOutcome where
  current_after : TraitState
  result : TraitDriftResult
  db_after : Option PersonaDB
  deriving Repr, DecidableEq

/-- Source `TraitDriftEngine.apply`. -/
def apply (eng : TraitDriftEngine) (current : TraitState)
    (i : TraitTurnInput) : ApplyOutcome :=
  let sd := pipeline eng current i
  let new_state := clip_state eng sd.1
  let db' := store_snapshot_if_supported i.db i.user_id new_state sd.2
    i.req i.memory i.identity
  { current_after := current
    result := { new_state := new_state, delta := sd.2 }
    db_after := db' }

/-- The sequence of states returned by successive `apply` calls, each fed
the previous call's `new_state` (as `PersonaController.handle_turn`
does). -/
def traitStates (eng : TraitDriftEngine) :
    TraitState → List TraitTurnInput → List TraitState
  | _, [] => []
  | s, i :: rest =>
      let s' := (apply eng s i).result.new_state
      s' :: traitStates eng s' rest

end TraitDriftEngine

-- ============================================================
-- Value Drift Engine (persona_modules/value_drift_engine.py)
-- ============================================================

/-- Source `ValueDriftConfig` (config.py): `max_step=0.02`, `min_step=0.001`,
`decay=0.995`. -/
structure ValueDriftConfig where
  max_step : ℚ
  min_step : ℚ
  decay : ℚ
  deriving Repr, DecidableEq

/-- Defaults of `ValueDriftConfig`. -/
def defaultValueDriftConfig : ValueDriftConfig :=
  { max_step := 1/50, min_step := 1/1000, decay := 199/200 }

namespace ValueDriftEngine

/-- Source `_decay_toward_center`: `0.5 + (v - 0.5) * decay`. -/
def decay_toward_center (cfg : ValueDriftConfig) (v : ℚ) : ℚ :=
  1/2 + (v - 1/2) * cfg.decay

/-- Source `_get_global_reward` on a `RewardSignal` object: the
`hasattr(reward, "global_reward")` branch fires and the property returns
`value`.  (The dict-shaped fallbacks normalise to the same scalar.) -/
def get_global_reward (reward : RewardSignal) : ℚ :=
  reward.value

/-- Source `_get_trait_reward` on a `RewardSignal` object: per-axis rewards from
`trait_reward` when present, else zeros. -/
def get_trait_reward (reward : RewardSignal) : TraitVector :=
  match reward.trait_reward with
  | some tv => tv
  | none => { calm := 0, empathy := 0, curiosity := 0 }

/-- Source `_compute_step_size`. -/
def compute_step_size (cfg : ValueDriftConfig) (global_reward : ℚ) : ℚ :=
  let mag := if |global_reward| > 1 then 1 else |global_reward|
  cfg.min_step + (cfg.max_step - cfg.min_step) * mag

/-- Source `_drift_for_axis` (axis_value is kept unused, as in the source). -/
def drift_for_axis (axis_r global_reward step_size : ℚ) : ℚ :=
  step_size * global_reward * (3/10) + step_size * axis_r * (7/10)

/-- Source `_clip01`. -/
def clip01 (v : ℚ) : ℚ :=
  if v < 0 then 0 else if v > 1 then 1 else v

/-- Source `ValueDriftEngine.step`. -/
def step (cfg : ValueDriftConfig) (traits : TraitVector)
    (reward : RewardSignal) : TraitVector :=
  let calm := decay_toward_center cfg traits.calm
  let empathy := decay_toward_center cfg traits.empathy
  let curiosity := decay_toward_center cfg traits.curiosity
  let global_r := get_global_reward reward
  let trait_r := get_trait_reward reward
  let step_size := compute_step_size cfg global_r
  let calm := calm + drift_for_axis trait_r.calm global_r step_size
  let empathy := empathy + drift_for_axis trait_r.empathy global_r step_size
  let curiosity := curiosity + drift_for_axis trait_r.curiosity global_r step_size
  { calm := clip01 calm, empathy := clip01 empathy,
    curiosity := clip01 curiosity }

/-- The sequence of vectors returned by successive `step` calls. -/
def valueStates (cfg : ValueDriftConfig) :
    TraitVector → List RewardSignal → List TraitVector
  | _, [] => []
  | t, r :: rest =>
      let t' := step cfg t r
      t' :: valueStates cfg t' rest

end ValueDriftEngine

-- ============================================================
-- Selective Recall (memory/selective_recall.py)
-- ============================================================

/-- The embedding collaborator (`encode` / `similarity`); `none` models a
raised exception. -/
structure EmbedModel where
  encode : String → Option (List ℚ)
  similarity : List ℚ → List ℚ → Option ℚ

/-- Source `SelectiveRecall.__init__` fields.  Defaults: `similarity_top_k=5`,
`min_score_threshold=0.12`, `use_recency_bias=True`,
`recency_weight=0.03`, fallback dim 384. -/
structure RecallConfig where
  top_k : ℕ
  min_score : ℚ
  use_recency : Bool
  recency_weight : ℚ
  fallback_dim : ℕ
  deriving Repr, DecidableEq

/-- Defaults of `RecallConfig`. -/
def defaultRecallConfig : RecallConfig :=
  { top_k := 5, min_score := 3/25, use_recency := true,
    recency_weight := 3/100, fallback_dim := 384 }

/-- Source `RecallCandidate` (the timestamp metadata dict is not modelled). -/
structure RecallCandidate where
  episode_id : String
  text : String
  score : ℚ
  deriving Repr, DecidableEq

namespace SelectiveRecall

/-- The per-episode similarity computed inside `collect_candidates`'s
loop: encode the episode summary and compare with the encoded message
(zero-vector fallback of length `fallback_dim`), `0.0` on failure.  The
message-vector computation is pure, so naming it per episode is
equivalent to the source's single computation before the loop. -/
def base_score (cfg : RecallConfig) (embed : EmbedModel)
    (req : PersonaRequest) (ep : Episode) : ℚ :=
  ((embed.encode ep.summary).bind
    (fun v => embed.similarity
      ((embed.encode req.message).getD (List.replicate cfg.fallback_dim 0)) v)).getD 0

/-- Source `SelectiveRecall.collect_candidates`.  `backend = none` models
`fetch_recent` raising; a failed `encode` of the request falls back to a
zero vector; a failed `encode`/`similarity` of an episode summary gives
score `0.0`; episodes with a falsy id are skipped. -/
def collect_candidates (cfg : RecallConfig) (embed : EmbedModel)
    (backend : Option (List Episode)) (req : PersonaRequest) :
    List RecallCandidate :=
  match backend with
  | none => []
  | some episodes =>
      let total : ℕ := if episodes.length = 0 then 1 else episodes.length
      episodes.enum.filterMap fun p =>
        let score :=
          if cfg.use_recency then
            base_score cfg embed req p.2 +
              cfg.recency_weight * (((total : ℚ) - (p.1 : ℚ)) / (total : ℚ))
          else base_score cfg embed req p.2
        if p.2.episode_id = "" then none
        else some { episode_id := p.2.episode_id, text := p.2.summary,
                    score := score }

/-- Source `SelectiveRecall.rank_and_select`. -/
def rank_and_select (cfg : RecallConfig) (candidates : List RecallCandidate) :
    List MemoryPointer :=
  if candidates.isEmpty then []
  else
    let sorted_items := sortDescBy (fun c => c.score) candidates
    let filtered := sorted_items.filter fun c => cfg.min_score ≤ c.score
    if filtered.isEmpty then []
    else
      let selected := filtered.take cfg.top_k
      selected.map fun c =>
        { episode_id := c.episode_id, source := "episodic",
          score := c.score, summary := some (c.text.take 200) }

/-- Source `SelectiveRecall.recall`. -/
def «recall» (cfg : RecallConfig) (embed : EmbedModel)
    (backend : Option (List Episode)) (req : PersonaRequest) :
    List MemoryPointer :=
  rank_and_select cfg (collect_candidates cfg embed backend req)

end SelectiveRecall

-- ============================================================
-- Ambiguity Resolver (memory/ambiguity_resolver.py)
-- ============================================================

/-- Source `AmbiguityResolution` (the `notes` dict is not modelled). -/
structure AmbiguityResolution where
  resolved_pointers : List MemoryPointer
  discarded_pointers : List MemoryPointer
  reason : Option String
  deriving Repr, DecidableEq

/-- Source `AmbiguityResolver.__init__` fields.  Defaults: `min_similarity=0.15`,
`max_resolve=3`. -/
structure AmbiguityConfig where
  min_similarity : ℚ
  max_resolve : ℕ
  deriving Repr, DecidableEq

/-- Defaults of `AmbiguityConfig`. -/
def defaultAmbiguityConfig : AmbiguityConfig :=
  { min_similarity := 3/20, max_resolve := 3 }

namespace AmbiguityResolver

/-- Source `AmbiguityResolver.AMBIGUOUS_TOKENS`. -/
def AMBIGUOUS_TOKENS : List String :=
  ["それ", "前の", "続き", "あの件", "その話", "例のやつ", "あれ", "さっきの",
   "同じ話", "この前のやつ",
   "the last one", "previous one", "that thing"]

/-- Source `AmbiguityResolver._detect_ambiguity`. -/
def detect_ambiguity (message : String) : Bool :=
  if message = "" then false
  else containsAny (strLower message) AMBIGUOUS_TOKENS

/-- The per-pointer similarity recomputed inside `_rerank`'s loop: encode
the pointer's summary (empty-string fallback) and compare with the
encoded message (`[0.0]` fallback), `0.0` on failure.  The message-vector
computation is pure, so naming it per pointer is equivalent to the
source's single computation before the loop. -/
def rerank_sim (embed : EmbedModel) (req : PersonaRequest)
    (p : MemoryPointer) : ℚ :=
  ((embed.encode (p.summary.getD "")).bind
    (fun v => embed.similarity ((embed.encode req.message).getD [0]) v)).getD 0

/-- Source `AmbiguityResolver._rerank`: independent re-scoring of each pointer's
summary against the message, dropping scores below `min_similarity`,
then a stable descending sort. -/
def rerank (cfg : AmbiguityConfig) (embed : EmbedModel)
    (req : PersonaRequest) (pointers : List MemoryPointer) :
    List MemoryPointer :=
  if pointers.isEmpty then []
  else
    let rescored := pointers.filterMap fun p =>
      if rerank_sim embed req p < cfg.min_similarity then none
      else some { episode_id := p.episode_id, source := p.source,
                  score := rerank_sim embed req p, summary := p.summary }
    sortDescBy (fun x => x.score) rescored

/-- Source `AmbiguityResolver.resolve`. -/
def resolve (cfg : AmbiguityConfig) (embed : EmbedModel)
    (req : PersonaRequest) (pointers : List MemoryPointer) :
    AmbiguityResolution :=
  let message := req.message
  if ¬ detect_ambiguity message then
    { resolved_pointers := pointers, discarded_pointers := [],
      reason := some "no ambiguity detected" }
  else
    let reranked := rerank cfg embed req pointers
    if reranked.isEmpty then
      { resolved_pointers := [], discarded_pointers := pointers,
        reason := some "ambiguity detected but no relevant memory" }
    else
      let top := reranked.take cfg.max_resolve
      let resolved_ids := top.map fun p => p.episode_id
      let discarded := pointers.filter fun p => ¬ resolved_ids.contains p.episode_id
      { resolved_pointers := top, discarded_pointers := discarded,
        reason := some "ambiguity resolved by semantic reranking" }

end AmbiguityResolver

-- ============================================================
-- Memory Orchestrator (memory/memory_orchestrator.py)
-- ============================================================

/-- Modelled from the spec: `EpisodeMergeResult` of
`persona_core/memory/episode_merger.py`, a file absent from the sources
(only its importers are present).  Spec §4.3: output
`{summary: optional string, used_pointers: the subset actually
incorporated}`; `raw_segments` / `notes` appear only in the
orchestrator's debug dict. -/
structure EpisodeMergeResult where
  summary : Option String
  used_pointers : List MemoryPointer
  raw_segments : List String
  deriving Repr, DecidableEq

/-- The `EpisodeMerger.merge` collaborator, kept abstract: the
orchestrator claims verified here hold for every merger body. -/
abbrev Merger := PersonaRequest → List MemoryPointer → EpisodeMergeResult

namespace MemoryOrchestrator

/-- Source `MemoryOrchestrator.select_for_request`.  The second component of the
returned pair records whether `EpisodeMerger.merge` was invoked during
the call. -/
def select_for_request (rcfg : RecallConfig) (acfg : AmbiguityConfig)
    (embed : EmbedModel) (backend : Option (List Episode))
    (merger : Merger) (req : PersonaRequest) :
    MemorySelectionResult × Bool :=
  let pointers := SelectiveRecall.recall rcfg embed backend req
  if pointers.isEmpty then
    ({ pointers := [], merged_summary := none }, false)
  else
    let ambiguity_result := AmbiguityResolver.resolve acfg embed req pointers
    let active_pointers := ambiguity_result.resolved_pointers
    if active_pointers.isEmpty then
      ({ pointers := [], merged_summary := none }, false)
    else
      let merge_result := merger req active_pointers
      ({ pointers := merge_result.used_pointers,
         merged_summary := merge_result.summary }, true)

end MemoryOrchestrator

-- ============================================================
-- Concrete fixtures used by witnesses and counterexamples
-- ============================================================

/-- A sample request. -/
def sampleReq : PersonaRequest :=
  { user_id := "u1", session_id := "s1", message := "hello", locale := "ja-JP" }

/-- An empty memory-selection result. -/
def emptyMemory : MemorySelectionResult :=
  { pointers := [], merged_summary := none }

/-- An identity result with no past context and a neutral topic label. -/
def sampleIdentity : IdentityContinuityResult :=
  { identity_context :=
      { topic_label := "t", has_past_context := false,
        anchor_hint := none, memory_preview := none }
    used_anchors := [] }

/-- A neutral value state. -/
def zeroValueState : ValueState :=
  { stability := 0, openness := 0, safety_bias := 0, user_alignment := 0 }

/-- A neutral trait state. -/
def zeroTraitState : TraitState :=
  { calm := 0, empathy := 0, curiosity := 0 }

/-- A turn input with every influence signal at its neutral value and no
database handle. -/
def idleInput : TraitTurnInput :=
  { req := sampleReq, memory := emptyMemory, identity := sampleIdentity,
    value_state := zeroValueState, affect_signal := none,
    db := none, user_id := none }

-- ============================================================
-- C10 — delta-map contract of `TraitDriftEngine.apply`
-- ============================================================

/-- Invariant threaded through the `apply` pipeline: the delta dict keeps
its three canonical entries and the working state equals the input state
plus the accumulated deltas, axis by axis. -/
def DeltasP (s : TraitState) (sd : TraitState × Deltas) : Prop :=
  ∃ a b c, sd.2 = [("calm", a), ("empathy", b), ("curiosity", c)] ∧
    sd.1.calm = s.calm + a ∧ sd.1.empathy = s.empathy + b ∧
    sd.1.curiosity = s.curiosity + c

-- ============================================================
-- C6 / C7 — memory pipeline failure policy and short circuits
-- ============================================================

/-- An embedding collaborator that always succeeds with constant outputs. -/
def zeroEmbed : EmbedModel :=
  { encode := fun _ => some [0], similarity := fun _ _ => some 0 }

/-- A merger that uses every surviving pointer and a constant summary. -/
def constMerger : Merger :=
  fun _ ps => { summary := some "m", used_pointers := ps, raw_segments := [] }

-- ============================================================
-- C9 — the trait engine writes its own snapshot when given a db
-- ============================================================

/-- A persona database handle that implements `store_trait_snapshot` and
holds no snapshots yet. -/
def supportDB : PersonaDB :=
  { supports_trait_snapshot := true, trait_snapshots := [] }

/-- The idle turn input, but carrying the database handle, as
`PersonaController.handle_turn` passes `db=self._db`. -/
def dbInput : TraitTurnInput :=
  { idleInput with db := some supportDB }

-- ============================================================
-- C8 — ambiguity resolver: all candidates eliminated
-- ============================================================

/-- A request whose message contains the vague-reference marker
"previous one". -/
def vagueReq : PersonaRequest :=
  { user_id := "u1", session_id := "s1", message := "previous one",
    locale := "en-US" }

/-- A candidate pointer fed to the resolver. -/
def vaguePointer : MemoryPointer :=
  { episode_id := "e1", source := "episodic", score := 1/2,
    summary := some "s1" }

-- ============================================================
-- C5 — order sensitivity of Candidate Recall
-- ============================================================

/-- Episode fixtures. -/
def epA : Episode := { episode_id := "a", summary := "x" }

/-- Episode fixtures. -/
def epB : Episode := { episode_id := "b", summary := "y" }

/-- Episode fixtures (summary distinct from `epA`'s). -/
def epC : Episode := { episode_id := "c", summary := "zz" }

/-- An embedding model giving every episode the same similarity 0.10. -/
def constEmbed : EmbedModel :=
  { encode := fun _ => some [], similarity := fun _ _ => some (1/10) }

/-- An embedding model giving every episode the same similarity 0.20. -/
def constEmbed2 : EmbedModel :=
  { encode := fun _ => some [], similarity := fun _ _ => some (1/5) }

/-- An embedding model whose similarity depends only on the encoded text:
summary "x" scores 0.1, anything else 0.2. -/
def caseEmbed : EmbedModel :=
  { encode := fun s => some [if s = "x" then 1 else 2],
    similarity := fun _ v => some (v.headD 0 / 10) }

/-- The default recall configuration with the recency bias disabled. -/
def norecConfig : RecallConfig :=
  { top_k := 5, min_score := 3/25, use_recency := false,
    recency_weight := 3/100, fallback_dim := 384 }

/-- Recency bias off and `similarity_top_k = 1`. -/
def tieConfig : RecallConfig :=
  { top_k := 1, min_score := 3/25, use_recency := false,
    recency_weight := 3/100, fallback_dim := 384 }

-- ============================================================
-- Theorems
-- ============================================================

-- Permutation / sortedness facts about `sortDescBy`.

theorem perm_insertDescBy {α : Type} (key : α → ℚ) (a : α) :
    ∀ l : List α, List.Perm (insertDescBy key a l) (a :: l) := by
  intro l
  induction l with
  | nil => simp [insertDescBy]
  | cons x xs ih =>
      by_cases h : key a < key x
      · simp only [insertDescBy, if_pos h]
        exact (ih.cons x).trans (List.Perm.swap a x xs)
      · simp [insertDescBy, if_neg h]

theorem perm_sortDescBy {α : Type} (key : α → ℚ) :
    ∀ l : List α, List.Perm (sortDescBy key l) l := by
  intro l
  induction l with
  | nil => simp [sortDescBy]
  | cons a rest ih =>
      exact (perm_insertDescBy key a (sortDescBy key rest)).trans (ih.cons a)

theorem sortedDesc_insertDescBy {α : Type} (key : α → ℚ) (a : α) (l : List α)
    (h : SortedDesc key l) : SortedDesc key (insertDescBy key a l) := by
  induction l with
  | nil => simp [insertDescBy, SortedDesc]
  | cons x xs ih =>
      rcases h with _ | ⟨hx, hxs⟩
      by_cases hax : key a < key x
      · simp only [insertDescBy, if_pos hax]
        constructor
        · intro b hb
          have hmem := (perm_insertDescBy key a xs).mem_iff.mp hb
          rcases List.mem_cons.mp hmem with hba | hbxs
          · exact hba ▸ le_of_lt hax
          · exact hx b hbxs
        · exact ih hxs
      · simp only [insertDescBy, if_neg hax]
        constructor
        · intro b hb
          rcases List.mem_cons.mp hb with hbx | hbxs
          · exact hbx ▸ le_of_not_lt hax
          · exact le_trans (hx b hbxs) (le_of_not_lt hax)
        · exact List.Pairwise.cons hx hxs

theorem sortedDesc_sortDescBy {α : Type} (key : α → ℚ) (l : List α) :
    SortedDesc key (sortDescBy key l) := by
  induction l with
  | nil => simp [sortDescBy, SortedDesc]
  | cons a rest ih => exact sortedDesc_insertDescBy key a _ ih

/-- Two sorted lists that are permutations of each other and whose keys are
pairwise distinct are equal. -/
theorem eq_of_perm_of_sortedDesc {α : Type} (key : α → ℚ) :
    ∀ {l₁ l₂ : List α}, List.Perm l₁ l₂ → SortedDesc key l₁ → SortedDesc key l₂ →
      l₁.Pairwise (fun a b => key a ≠ key b) → l₁ = l₂ := by
  intro l₁
  induction l₁ with
  | nil =>
      intro l₂ hp _ _ _
      exact hp.nil_eq
  | cons a t₁ ih =>
      intro l₂ hp hs₁ hs₂ hd
      cases l₂ with
      | nil => exact absurd hp.symm (by simp)
      | cons b t₂ =>
          rcases hs₁ with _ | ⟨ha, hs₁'⟩
          rcases hs₂ with _ | ⟨hb, hs₂'⟩
          rcases hd with _ | ⟨hda, hd'⟩
          -- `a` is maximal in `l₁`, hence in `l₂`; symmetrically for `b`.
          have hab : key b ≤ key a := by
            have hbmem : b ∈ a :: t₁ := hp.symm.subset (List.mem_cons_self b t₂)
            rcases List.mem_cons.mp hbmem with hba | hbt₁
            · exact le_of_eq (congrArg key hba)
            · exact ha b hbt₁
          have hba : key a ≤ key b := by
            have hamem : a ∈ b :: t₂ := hp.subset (List.mem_cons_self a t₁)
            rcases List.mem_cons.mp hamem with hab' | hat₂
            · exact le_of_eq (congrArg key hab')
            · exact hb a hat₂
          have hkey : key a = key b := le_antisymm hba hab
          have hbeq : a = b := by
            have hbmem : b ∈ a :: t₁ := hp.symm.subset (List.mem_cons_self b t₂)
            rcases List.mem_cons.mp hbmem with h | hbt₁
            · exact h.symm
            · exact absurd hkey (hda b hbt₁)
          subst hbeq
          have htp : List.Perm t₁ t₂ := hp.cons_inv
          have := ih htp hs₁' hs₂' hd'
          rw [this]

theorem sortDescBy_keys_eq {α : Type} (key : α → ℚ) {l₁ l₂ : List α}
    (hp : List.Perm l₁ l₂) (hd : l₁.Pairwise (fun a b => key a ≠ key b)) :
    sortDescBy key l₁ = sortDescBy key l₂ := by
  have h₁ := perm_sortDescBy key l₁
  have h₂ := perm_sortDescBy key l₂
  have hperm : List.Perm (sortDescBy key l₁) (sortDescBy key l₂) :=
    (h₁.trans hp).trans h₂.symm
  have hd' : (sortDescBy key l₁).Pairwise (fun a b => key a ≠ key b) := by
    have hsym : ∀ a b : α, key a ≠ key b → key b ≠ key a := fun a b h => h.symm
    exact (List.Perm.pairwise_iff (fun h => (Ne.symm h)) h₁).mpr hd
  exact eq_of_perm_of_sortedDesc key hperm
    (sortedDesc_sortDescBy key l₁) (sortedDesc_sortDescBy key l₂) hd'

-- ============================================================
-- C1 / C2 — Global State Machine
-- ============================================================

/-- C1: for every input combination in which the safety condition holds
(`safety_flag` one of "escalated"/"blocked"/"intervened", or
`value_state.safety_bias` at or above the high safety-bias threshold),
`GlobalStateMachine.decide` returns the SAFETY_LOCK state, regardless of
`overload_score` and of the computed reflective score. -/
theorem decide_safety_locked (m : GlobalStateMachine) (req : PersonaRequest)
    (memory : MemorySelectionResult) (identity : IdentityContinuityResult)
    (value_state : ValueState) (trait_state : TraitState)
    (safety_flag : Option String) (overload_score : Option ℚ)
    (prev_state : Option PersonaGlobalState)
    (h : safety_flag = some "escalated" ∨ safety_flag = some "blocked"
      ∨ safety_flag = some "intervened"
      ∨ value_state.safety_bias ≥ m.high_safety_bias_threshold) :
    (GlobalStateMachine.decide m req memory identity value_state trait_state
      safety_flag overload_score prev_state).state =
      PersonaGlobalState.SAFETY_LOCK := by
  by_cases h1 : safety_flag = some "escalated" ∨ safety_flag = some "blocked"
      ∨ safety_flag = some "intervened"
  · simp [GlobalStateMachine.decide, h1]
  · have h2 : value_state.safety_bias ≥ m.high_safety_bias_threshold := by
      rcases h with h | h | h | h
      · exact absurd (Or.inl h) h1
      · exact absurd (Or.inr (Or.inl h)) h1
      · exact absurd (Or.inr (Or.inr h)) h1
      · exact h
    simp [GlobalStateMachine.decide, h1, h2]

/-- C1 witness: with `safety_flag="blocked"`, a high overload score and
arbitrary other signals, the FSM still answers SAFETY_LOCK. -/
theorem decide_safety_locked_witness :
    (some "blocked" = some "escalated" ∨ some "blocked" = some "blocked"
      ∨ some "blocked" = some "intervened"
      ∨ zeroValueState.safety_bias ≥
          defaultGlobalStateMachine.high_safety_bias_threshold) ∧
    (GlobalStateMachine.decide defaultGlobalStateMachine sampleReq emptyMemory
      sampleIdentity zeroValueState zeroTraitState (some "blocked") (some 1)
      none).state = PersonaGlobalState.SAFETY_LOCK :=
  ⟨Or.inr (Or.inl rfl),
   decide_safety_locked defaultGlobalStateMachine sampleReq emptyMemory
     sampleIdentity zeroValueState zeroTraitState (some "blocked") (some 1)
     none (Or.inr (Or.inl rfl))⟩

/-- C2: for every possible input combination, `GlobalStateMachine.decide`
never returns SILENT; the returned state is always one of NORMAL,
REFLECTIVE, OVERLOADED or SAFETY_LOCK. -/
theorem decide_never_silent (m : GlobalStateMachine) (req : PersonaRequest)
    (memory : MemorySelectionResult) (identity : IdentityContinuityResult)
    (value_state : ValueState) (trait_state : TraitState)
    (safety_flag : Option String) (overload_score : Option ℚ)
    (prev_state : Option PersonaGlobalState) :
    (GlobalStateMachine.decide m req memory identity value_state trait_state
      safety_flag overload_score prev_state).state ≠
        PersonaGlobalState.SILENT ∧
    ((GlobalStateMachine.decide m req memory identity value_state trait_state
      safety_flag overload_score prev_state).state = PersonaGlobalState.NORMAL
     ∨ (GlobalStateMachine.decide m req memory identity value_state trait_state
      safety_flag overload_score prev_state).state = PersonaGlobalState.REFLECTIVE
     ∨ (GlobalStateMachine.decide m req memory identity value_state trait_state
      safety_flag overload_score prev_state).state = PersonaGlobalState.OVERLOADED
     ∨ (GlobalStateMachine.decide m req memory identity value_state trait_state
      safety_flag overload_score prev_state).state =
        PersonaGlobalState.SAFETY_LOCK) := by
  by_cases h1 : safety_flag = some "escalated" ∨ safety_flag = some "blocked"
      ∨ safety_flag = some "intervened"
  · simp [GlobalStateMachine.decide, h1]
  · by_cases h2 : value_state.safety_bias ≥ m.high_safety_bias_threshold
    · simp [GlobalStateMachine.decide, h1, h2]
    · by_cases h4 : GlobalStateMachine.estimate_reflective_need m req memory
          identity value_state trait_state ≥ 1
      · cases overload_score with
        | none => simp [GlobalStateMachine.decide, h1, h2, h4]
        | some o =>
            by_cases h3 : o ≥ m.overload_threshold
            · simp [GlobalStateMachine.decide, h1, h2, h3, h4]
            · simp [GlobalStateMachine.decide, h1, h2, h3, h4]
      · cases overload_score with
        | none => simp [GlobalStateMachine.decide, h1, h2, h4]
        | some o =>
            by_cases h3 : o ≥ m.overload_threshold
            · simp [GlobalStateMachine.decide, h1, h2, h3, h4]
            · simp [GlobalStateMachine.decide, h1, h2, h3, h4]

-- ============================================================
-- C3 — clamp invariants of both drift engines
-- ============================================================

theorem clipQ_mem (L v : ℚ) (hL : 0 ≤ L) :
    -L ≤ TraitDriftEngine.clipQ L v ∧ TraitDriftEngine.clipQ L v ≤ L := by
  unfold TraitDriftEngine.clipQ
  split_ifs with h1 h2 <;> constructor <;> linarith

theorem apply_new_state_bounds (eng : TraitDriftEngine) (hlim : eng.limit = 1)
    (s : TraitState) (i : TraitTurnInput) :
    (-1 ≤ (TraitDriftEngine.apply eng s i).result.new_state.calm ∧
      (TraitDriftEngine.apply eng s i).result.new_state.calm ≤ 1) ∧
    (-1 ≤ (TraitDriftEngine.apply eng s i).result.new_state.empathy ∧
      (TraitDriftEngine.apply eng s i).result.new_state.empathy ≤ 1) ∧
    (-1 ≤ (TraitDriftEngine.apply eng s i).result.new_state.curiosity ∧
      (TraitDriftEngine.apply eng s i).result.new_state.curiosity ≤ 1) := by
  have h01 : (0 : ℚ) ≤ 1 := by norm_num
  refine ⟨?_, ?_, ?_⟩ <;>
    simp only [TraitDriftEngine.apply, TraitDriftEngine.clip_state, hlim] <;>
    exact clipQ_mem 1 _ h01

theorem traitStates_bounds (eng : TraitDriftEngine) (hlim : eng.limit = 1) :
    ∀ (inputs : List TraitTurnInput) (s0 s : TraitState),
      s ∈ TraitDriftEngine.traitStates eng s0 inputs →
      (-1 ≤ s.calm ∧ s.calm ≤ 1) ∧ (-1 ≤ s.empathy ∧ s.empathy ≤ 1) ∧
      (-1 ≤ s.curiosity ∧ s.curiosity ≤ 1) := by
  intro inputs
  induction inputs with
  | nil => intro s0 s hs; simp [TraitDriftEngine.traitStates] at hs
  | cons i rest ih =>
      intro s0 s hs
      simp only [TraitDriftEngine.traitStates, List.mem_cons] at hs
      rcases hs with rfl | hs
      · exact apply_new_state_bounds eng hlim s0 i
      · exact ih _ s hs

theorem clip01_mem (v : ℚ) :
    0 ≤ ValueDriftEngine.clip01 v ∧ ValueDriftEngine.clip01 v ≤ 1 := by
  unfold ValueDriftEngine.clip01
  split_ifs with h1 h2 <;> constructor <;> linarith

theorem step_bounds (cfg : ValueDriftConfig) (t : TraitVector)
    (r : RewardSignal) :
    (0 ≤ (ValueDriftEngine.step cfg t r).calm ∧
      (ValueDriftEngine.step cfg t r).calm ≤ 1) ∧
    (0 ≤ (ValueDriftEngine.step cfg t r).empathy ∧
      (ValueDriftEngine.step cfg t r).empathy ≤ 1) ∧
    (0 ≤ (ValueDriftEngine.step cfg t r).curiosity ∧
      (ValueDriftEngine.step cfg t r).curiosity ≤ 1) := by
  refine ⟨?_, ?_, ?_⟩ <;>
    simp only [ValueDriftEngine.step] <;> exact clip01_mem _

theorem valueStates_bounds (cfg : ValueDriftConfig) :
    ∀ (rewards : List RewardSignal) (t0 t : TraitVector),
      t ∈ ValueDriftEngine.valueStates cfg t0 rewards →
      (0 ≤ t.calm ∧ t.calm ≤ 1) ∧ (0 ≤ t.empathy ∧ t.empathy ≤ 1) ∧
      (0 ≤ t.curiosity ∧ t.curiosity ≤ 1) := by
  intro rewards
  induction rewards with
  | nil => intro t0 t ht; simp [ValueDriftEngine.valueStates] at ht
  | cons r rest ih =>
      intro t0 t ht
      simp only [ValueDriftEngine.valueStates, List.mem_cons] at ht
      rcases ht with rfl | ht
      · exact step_bounds cfg t0 r
      · exact ih _ t ht

/-- C3: for every starting state and every sequence of turn inputs, every
axis of every state returned by `TraitDriftEngine.apply` (with the
declared axis limit 1) lies in `[-1, 1]`, and every axis of every vector
returned by `ValueDriftEngine.step` lies in `[0, 1]`. -/
theorem drift_axes_always_bounded (eng : TraitDriftEngine)
    (s0 s : TraitState) (inputs : List TraitTurnInput)
    (cfg : ValueDriftConfig) (t0 t : TraitVector)
    (rewards : List RewardSignal)
    (hlim : eng.limit = 1)
    (hs : s ∈ TraitDriftEngine.traitStates eng s0 inputs)
    (ht : t ∈ ValueDriftEngine.valueStates cfg t0 rewards) :
    ((-1 ≤ s.calm ∧ s.calm ≤ 1) ∧ (-1 ≤ s.empathy ∧ s.empathy ≤ 1) ∧
      (-1 ≤ s.curiosity ∧ s.curiosity ≤ 1)) ∧
    ((0 ≤ t.calm ∧ t.calm ≤ 1) ∧ (0 ≤ t.empathy ∧ t.empathy ≤ 1) ∧
      (0 ≤ t.curiosity ∧ t.curiosity ≤ 1)) :=
  ⟨traitStates_bounds eng hlim inputs s0 s hs,
   valueStates_bounds cfg rewards t0 t ht⟩

theorem idle_turn_traitStates_mem :
    zeroTraitState ∈ TraitDriftEngine.traitStates defaultTraitDriftEngine
      zeroTraitState [idleInput] := by
  simp [TraitDriftEngine.traitStates, TraitDriftEngine.apply,
    TraitDriftEngine.pipeline, TraitDriftEngine.apply_decay,
    TraitDriftEngine.apply_identity_influence,
    TraitDriftEngine.apply_memory_influence,
    TraitDriftEngine.apply_value_influence,
    TraitDriftEngine.apply_affect_influence, TraitDriftEngine.clip_state,
    TraitDriftEngine.clipQ, bump, getAxis, setAxis, deltaAdd, strLower,
    containsAny, strContains, hasSub, headMatches,
    TraitDriftEngine.negTopicMarkers, idleInput, sampleReq, emptyMemory,
    sampleIdentity, zeroValueState, zeroTraitState, defaultTraitDriftEngine]
  norm_num

theorem neutral_reward_valueStates_mem :
    TraitVector.mk (1/2) (1/2) (1/2) ∈ ValueDriftEngine.valueStates
      defaultValueDriftConfig (TraitVector.mk (1/2) (1/2) (1/2))
      [RewardSignal.mk 0 none] := by
  simp [ValueDriftEngine.valueStates, ValueDriftEngine.step,
    ValueDriftEngine.decay_toward_center, ValueDriftEngine.get_global_reward,
    ValueDriftEngine.get_trait_reward, ValueDriftEngine.compute_step_size,
    ValueDriftEngine.drift_for_axis, ValueDriftEngine.clip01,
    defaultValueDriftConfig]
  norm_num

/-- C3 witness: one neutral turn of each engine, from neutral starting
states, stays inside the declared intervals. -/
theorem drift_axes_always_bounded_witness :
    (defaultTraitDriftEngine.limit = 1 ∧
     zeroTraitState ∈ TraitDriftEngine.traitStates defaultTraitDriftEngine
       zeroTraitState [idleInput] ∧
     TraitVector.mk (1/2) (1/2) (1/2) ∈ ValueDriftEngine.valueStates
       defaultValueDriftConfig (TraitVector.mk (1/2) (1/2) (1/2))
       [RewardSignal.mk 0 none]) ∧
    (((-1 ≤ zeroTraitState.calm ∧ zeroTraitState.calm ≤ 1) ∧
      (-1 ≤ zeroTraitState.empathy ∧ zeroTraitState.empathy ≤ 1) ∧
      (-1 ≤ zeroTraitState.curiosity ∧ zeroTraitState.curiosity ≤ 1)) ∧
     ((0 ≤ (TraitVector.mk (1/2) (1/2) (1/2) : TraitVector).calm ∧
        (TraitVector.mk (1/2) (1/2) (1/2) : TraitVector).calm ≤ 1) ∧
      (0 ≤ (TraitVector.mk (1/2) (1/2) (1/2) : TraitVector).empathy ∧
        (TraitVector.mk (1/2) (1/2) (1/2) : TraitVector).empathy ≤ 1) ∧
      (0 ≤ (TraitVector.mk (1/2) (1/2) (1/2) : TraitVector).curiosity ∧
        (TraitVector.mk (1/2) (1/2) (1/2) : TraitVector).curiosity ≤ 1))) :=
  ⟨⟨rfl, idle_turn_traitStates_mem, neutral_reward_valueStates_mem⟩,
   drift_axes_always_bounded defaultTraitDriftEngine zeroTraitState
     zeroTraitState [idleInput] defaultValueDriftConfig
     (TraitVector.mk (1/2) (1/2) (1/2)) (TraitVector.mk (1/2) (1/2) (1/2))
     [RewardSignal.mk 0 none] rfl idle_turn_traitStates_mem
     neutral_reward_valueStates_mem⟩

-- ============================================================
-- C4 — decay-only monotone convergence of the trait engine
-- ============================================================

theorem decay_clip_props (d L v : ℚ) (hd0 : 0 < d) (hd1 : d ≤ 1) (hL : 0 ≤ L) :
    |TraitDriftEngine.clipQ L (v + -v * d)| ≤ |v| ∧
    (v ≠ 0 → |TraitDriftEngine.clipQ L (v + -v * d)| < |v|) ∧
    0 ≤ v * TraitDriftEngine.clipQ L (v + -v * d) := by
  have hw : v + -v * d = v * (1 - d) := by ring
  rw [hw]
  have h1d0 : 0 ≤ 1 - d := by linarith
  have h1d1 : 1 - d < 1 := by linarith
  have habs : |v * (1 - d)| = |v| * (1 - d) := by
    rw [abs_mul, abs_of_nonneg h1d0]
  have hle : |v * (1 - d)| ≤ |v| := by
    rw [habs]
    nlinarith [abs_nonneg v]
  unfold TraitDriftEngine.clipQ
  split_ifs with hgt hlt
  · have hwpos : 0 < v * (1 - d) := lt_of_le_of_lt hL hgt
    have hvpos : 0 < v := by nlinarith
    have hLv : L < |v| := by
      have h2 : v * (1 - d) ≤ |v| := le_trans (le_abs_self _) hle
      linarith
    refine ⟨?_, fun _ => ?_, ?_⟩
    · rw [abs_of_nonneg hL]; linarith
    · rw [abs_of_nonneg hL]; linarith
    · exact mul_nonneg (le_of_lt hvpos) hL
  · have hwneg : v * (1 - d) < 0 := by linarith
    have hvneg : v < 0 := by nlinarith
    have hLv : L < |v| := by
      have h2 : -(v * (1 - d)) ≤ |v| := le_trans (neg_le_abs _) hle
      linarith
    refine ⟨?_, fun _ => ?_, ?_⟩
    · rw [abs_neg, abs_of_nonneg hL]; linarith
    · rw [abs_neg, abs_of_nonneg hL]; linarith
    · nlinarith
  · refine ⟨hle, fun hv => ?_, ?_⟩
    · rw [habs]
      have hvabs : 0 < |v| := abs_pos.mpr hv
      nlinarith
    · nlinarith [sq_nonneg v]

theorem apply_zero_influence (eng : TraitDriftEngine) (s : TraitState)
    (i : TraitTurnInput)
    (hmem : i.memory.pointers = [])
    (hpast : i.identity.identity_context.has_past_context = false)
    (htopic : containsAny (strLower i.identity.identity_context.topic_label)
      TraitDriftEngine.negTopicMarkers = false)
    (hopen : i.value_state.openness ≤ 0)
    (hsafety : i.value_state.safety_bias ≤ 0)
    (haffect : i.affect_signal = none) :
    (TraitDriftEngine.apply eng s i).result.new_state =
      { calm := TraitDriftEngine.clipQ eng.limit (s.calm + -s.calm * eng.decay)
        empathy := TraitDriftEngine.clipQ eng.limit
          (s.empathy + -s.empathy * eng.decay)
        curiosity := TraitDriftEngine.clipQ eng.limit
          (s.curiosity + -s.curiosity * eng.decay) } := by
  simp [TraitDriftEngine.apply, TraitDriftEngine.pipeline,
    TraitDriftEngine.apply_decay, TraitDriftEngine.apply_identity_influence,
    TraitDriftEngine.apply_memory_influence,
    TraitDriftEngine.apply_value_influence,
    TraitDriftEngine.apply_affect_influence, TraitDriftEngine.clip_state,
    bump, getAxis, setAxis, deltaAdd, hmem, hpast, htopic, haffect,
    not_lt.mpr hopen, not_lt.mpr hsafety]

/-- C4: when every influence signal is zero (no memory pointers, no past
context, no negative-topic marker, non-positive openness and safety bias,
no affect signal) and the decay rate lies in `(0, 1]`, each
`TraitDriftEngine.apply` step moves every axis toward the center value 0
without overshooting: the distance to 0 never increases, decreases
strictly while the axis is nonzero, and the axis never crosses 0.  The
starting state is arbitrary, so this bounds every step of a repeated
decay-only run. -/
theorem decay_only_monotone (eng : TraitDriftEngine) (s : TraitState)
    (i : TraitTurnInput)
    (hd0 : 0 < eng.decay) (hd1 : eng.decay ≤ 1) (hL : 0 ≤ eng.limit)
    (hmem : i.memory.pointers = [])
    (hpast : i.identity.identity_context.has_past_context = false)
    (htopic : containsAny (strLower i.identity.identity_context.topic_label)
      TraitDriftEngine.negTopicMarkers = false)
    (hopen : i.value_state.openness ≤ 0)
    (hsafety : i.value_state.safety_bias ≤ 0)
    (haffect : i.affect_signal = none) :
    (|(TraitDriftEngine.apply eng s i).result.new_state.calm| ≤ |s.calm| ∧
      (s.calm ≠ 0 →
        |(TraitDriftEngine.apply eng s i).result.new_state.calm| < |s.calm|) ∧
      0 ≤ s.calm * (TraitDriftEngine.apply eng s i).result.new_state.calm) ∧
    (|(TraitDriftEngine.apply eng s i).result.new_state.empathy| ≤ |s.empathy| ∧
      (s.empathy ≠ 0 →
        |(TraitDriftEngine.apply eng s i).result.new_state.empathy| < |s.empathy|) ∧
      0 ≤ s.empathy * (TraitDriftEngine.apply eng s i).result.new_state.empathy) ∧
    (|(TraitDriftEngine.apply eng s i).result.new_state.curiosity| ≤ |s.curiosity| ∧
      (s.curiosity ≠ 0 →
        |(TraitDriftEngine.apply eng s i).result.new_state.curiosity| < |s.curiosity|) ∧
      0 ≤ s.curiosity * (TraitDriftEngine.apply eng s i).result.new_state.curiosity) := by
  rw [apply_zero_influence eng s i hmem hpast htopic hopen hsafety haffect]
  exact ⟨decay_clip_props eng.decay eng.limit s.calm hd0 hd1 hL,
    decay_clip_props eng.decay eng.limit s.empathy hd0 hd1 hL,
    decay_clip_props eng.decay eng.limit s.curiosity hd0 hd1 hL⟩

/-- C4 witness: the default engine on the idle input, from the state
`(1/2, -1/3, 0)`. -/
theorem decay_only_monotone_witness :
    (0 < defaultTraitDriftEngine.decay ∧ defaultTraitDriftEngine.decay ≤ 1 ∧
     0 ≤ defaultTraitDriftEngine.limit ∧ idleInput.memory.pointers = [] ∧
     idleInput.identity.identity_context.has_past_context = false ∧
     containsAny (strLower idleInput.identity.identity_context.topic_label)
       TraitDriftEngine.negTopicMarkers = false ∧
     idleInput.value_state.openness ≤ 0 ∧
     idleInput.value_state.safety_bias ≤ 0 ∧
     idleInput.affect_signal = none) ∧
    ((|(TraitDriftEngine.apply defaultTraitDriftEngine
        (TraitState.mk (1/2) (-1/3) 0) idleInput).result.new_state.calm| ≤
        |(TraitState.mk (1/2) (-1/3) 0).calm| ∧
      ((TraitState.mk (1/2) (-1/3) 0).calm ≠ 0 →
        |(TraitDriftEngine.apply defaultTraitDriftEngine
          (TraitState.mk (1/2) (-1/3) 0) idleInput).result.new_state.calm| <
          |(TraitState.mk (1/2) (-1/3) 0).calm|) ∧
      0 ≤ (TraitState.mk (1/2) (-1/3) 0).calm *
        (TraitDriftEngine.apply defaultTraitDriftEngine
          (TraitState.mk (1/2) (-1/3) 0) idleInput).result.new_state.calm) ∧
     (|(TraitDriftEngine.apply defaultTraitDriftEngine
        (TraitState.mk (1/2) (-1/3) 0) idleInput).result.new_state.empathy| ≤
        |(TraitState.mk (1/2) (-1/3) 0).empathy| ∧
      ((TraitState.mk (1/2) (-1/3) 0).empathy ≠ 0 →
        |(TraitDriftEngine.apply defaultTraitDriftEngine
          (TraitState.mk (1/2) (-1/3) 0) idleInput).result.new_state.empathy| <
          |(TraitState.mk (1/2) (-1/3) 0).empathy|) ∧
      0 ≤ (TraitState.mk (1/2) (-1/3) 0).empathy *
        (TraitDriftEngine.apply defaultTraitDriftEngine
          (TraitState.mk (1/2) (-1/3) 0) idleInput).result.new_state.empathy) ∧
     (|(TraitDriftEngine.apply defaultTraitDriftEngine
        (TraitState.mk (1/2) (-1/3) 0) idleInput).result.new_state.curiosity| ≤
        |(TraitState.mk (1/2) (-1/3) 0).curiosity| ∧
      ((TraitState.mk (1/2) (-1/3) 0).curiosity ≠ 0 →
        |(TraitDriftEngine.apply defaultTraitDriftEngine
          (TraitState.mk (1/2) (-1/3) 0) idleInput).result.new_state.curiosity| <
          |(TraitState.mk (1/2) (-1/3) 0).curiosity|) ∧
      0 ≤ (TraitState.mk (1/2) (-1/3) 0).curiosity *
        (TraitDriftEngine.apply defaultTraitDriftEngine
          (TraitState.mk (1/2) (-1/3) 0) idleInput).result.new_state.curiosity)) :=
  ⟨⟨by norm_num [defaultTraitDriftEngine],
    by norm_num [defaultTraitDriftEngine],
    by norm_num [defaultTraitDriftEngine], rfl, rfl, by decide,
    by norm_num [idleInput, zeroValueState],
    by norm_num [idleInput, zeroValueState], rfl⟩,
   decay_only_monotone defaultTraitDriftEngine (TraitState.mk (1/2) (-1/3) 0)
     idleInput (by norm_num [defaultTraitDriftEngine])
     (by norm_num [defaultTraitDriftEngine])
     (by norm_num [defaultTraitDriftEngine]) rfl rfl (by decide)
     (by norm_num [idleInput, zeroValueState])
     (by norm_num [idleInput, zeroValueState]) rfl⟩

theorem bump_calm_P {s : TraitState} {sd : TraitState × Deltas} {dv : ℚ}
    (h : DeltasP s sd) : DeltasP s (bump sd "calm" dv) := by
  obtain ⟨a, b, c, hds, h1, h2, h3⟩ := h
  refine ⟨a + dv, b, c, ?_, ?_, ?_, ?_⟩
  · simp [bump, deltaAdd, hds]
  · simp [bump, getAxis, setAxis, h1]; ring
  · simp [bump, getAxis, setAxis, h2]
  · simp [bump, getAxis, setAxis, h3]

theorem bump_empathy_P {s : TraitState} {sd : TraitState × Deltas} {dv : ℚ}
    (h : DeltasP s sd) : DeltasP s (bump sd "empathy" dv) := by
  obtain ⟨a, b, c, hds, h1, h2, h3⟩ := h
  refine ⟨a, b + dv, c, ?_, ?_, ?_, ?_⟩
  · simp [bump, deltaAdd, hds]
  · simp [bump, getAxis, setAxis, h1]
  · simp [bump, getAxis, setAxis, h2]; ring
  · simp [bump, getAxis, setAxis, h3]

theorem bump_curiosity_P {s : TraitState} {sd : TraitState × Deltas} {dv : ℚ}
    (h : DeltasP s sd) : DeltasP s (bump sd "curiosity" dv) := by
  obtain ⟨a, b, c, hds, h1, h2, h3⟩ := h
  refine ⟨a, b, c + dv, ?_, ?_, ?_, ?_⟩
  · simp [bump, deltaAdd, hds]
  · simp [bump, getAxis, setAxis, h1]
  · simp [bump, getAxis, setAxis, h2]
  · simp [bump, getAxis, setAxis, h3]; ring

theorem apply_decay_P (eng : TraitDriftEngine) {s : TraitState}
    {sd : TraitState × Deltas} (h : DeltasP s sd) :
    DeltasP s (TraitDriftEngine.apply_decay eng sd) := by
  obtain ⟨a, b, c, hds, h1, h2, h3⟩ := h
  have hkeys : sd.2.map Prod.fst = ["calm", "empathy", "curiosity"] := by
    rw [hds]; rfl
  unfold TraitDriftEngine.apply_decay
  rw [hkeys]
  simp only [List.foldl_cons, List.foldl_nil]
  exact bump_curiosity_P (bump_empathy_P
    (bump_calm_P ⟨a, b, c, hds, h1, h2, h3⟩))

theorem apply_identity_P (eng : TraitDriftEngine)
    (identity : IdentityContinuityResult) {s : TraitState}
    {sd : TraitState × Deltas} (h : DeltasP s sd) :
    DeltasP s (TraitDriftEngine.apply_identity_influence eng sd identity) := by
  simp only [TraitDriftEngine.apply_identity_influence]
  split_ifs <;>
    repeat (first
      | exact h
      | apply bump_calm_P
      | apply bump_empathy_P
      | apply bump_curiosity_P)

theorem apply_memory_P (eng : TraitDriftEngine)
    (memory : MemorySelectionResult) {s : TraitState}
    {sd : TraitState × Deltas} (h : DeltasP s sd) :
    DeltasP s (TraitDriftEngine.apply_memory_influence eng sd memory) := by
  simp only [TraitDriftEngine.apply_memory_influence]
  split_ifs <;>
    repeat (first
      | exact h
      | apply bump_calm_P
      | apply bump_empathy_P
      | apply bump_curiosity_P)

theorem apply_value_P (eng : TraitDriftEngine) (value_state : ValueState)
    {s : TraitState} {sd : TraitState × Deltas} (h : DeltasP s sd) :
    DeltasP s (TraitDriftEngine.apply_value_influence eng sd value_state) := by
  simp only [TraitDriftEngine.apply_value_influence]
  split_ifs <;>
    repeat (first
      | exact h
      | apply bump_calm_P
      | apply bump_empathy_P
      | apply bump_curiosity_P)

theorem apply_affect_P (eng : TraitDriftEngine)
    (affect_signal : Option Affect) {s : TraitState}
    {sd : TraitState × Deltas} (h : DeltasP s sd) :
    DeltasP s (TraitDriftEngine.apply_affect_influence eng sd affect_signal) := by
  cases affect_signal with
  | none => exact h
  | some a =>
      simp only [TraitDriftEngine.apply_affect_influence]
      split_ifs <;>
        repeat (first
          | exact h
          | apply bump_calm_P
          | apply bump_empathy_P
          | apply bump_curiosity_P)

theorem pipeline_P (eng : TraitDriftEngine) (s : TraitState)
    (i : TraitTurnInput) : DeltasP s (TraitDriftEngine.pipeline eng s i) := by
  unfold TraitDriftEngine.pipeline
  exact apply_affect_P eng i.affect_signal
    (apply_value_P eng i.value_state
      (apply_memory_P eng i.memory
        (apply_identity_P eng i.identity
          (apply_decay_P eng
            ⟨0, 0, 0, rfl, (add_zero _).symm, (add_zero _).symm,
             (add_zero _).symm⟩))))

theorem clipQ_id (v : ℚ) (h1 : -1 ≤ v) (h2 : v ≤ 1) :
    TraitDriftEngine.clipQ 1 v = v := by
  unfold TraitDriftEngine.clipQ
  split_ifs <;> linarith

theorem apply_delta_eq (eng : TraitDriftEngine) (s : TraitState)
    (i : TraitTurnInput) :
    (TraitDriftEngine.apply eng s i).result.delta =
      (TraitDriftEngine.pipeline eng s i).2 := rfl

theorem apply_new_state_eq (eng : TraitDriftEngine) (s : TraitState)
    (i : TraitTurnInput) :
    (TraitDriftEngine.apply eng s i).result.new_state =
      TraitDriftEngine.clip_state eng (TraitDriftEngine.pipeline eng s i).1 := rfl

/-- C10: `TraitDriftEngine.apply` leaves the caller's `current` object
untouched (the source copies it field-by-field before mutating), returns a
delta map whose keys are exactly calm / empathy / curiosity, and — for any
axis whose accumulated pre-clip value stays inside `[-1, 1]`, i.e. for
which no clipping occurs — satisfies
`new_state.axis = current.axis + delta[axis]`. -/
theorem apply_delta_contract (eng : TraitDriftEngine) (s : TraitState)
    (i : TraitTurnInput) (hlim : eng.limit = 1) :
    (TraitDriftEngine.apply eng s i).current_after = s ∧
    (TraitDriftEngine.apply eng s i).result.delta.map Prod.fst =
      ["calm", "empathy", "curiosity"] ∧
    ((-1 ≤ (TraitDriftEngine.pipeline eng s i).1.calm ∧
        (TraitDriftEngine.pipeline eng s i).1.calm ≤ 1) →
      (TraitDriftEngine.apply eng s i).result.new_state.calm =
        s.calm + deltaGet (TraitDriftEngine.apply eng s i).result.delta "calm") ∧
    ((-1 ≤ (TraitDriftEngine.pipeline eng s i).1.empathy ∧
        (TraitDriftEngine.pipeline eng s i).1.empathy ≤ 1) →
      (TraitDriftEngine.apply eng s i).result.new_state.empathy =
        s.empathy + deltaGet (TraitDriftEngine.apply eng s i).result.delta "empathy") ∧
    ((-1 ≤ (TraitDriftEngine.pipeline eng s i).1.curiosity ∧
        (TraitDriftEngine.pipeline eng s i).1.curiosity ≤ 1) →
      (TraitDriftEngine.apply eng s i).result.new_state.curiosity =
        s.curiosity + deltaGet (TraitDriftEngine.apply eng s i).result.delta "curiosity") := by
  obtain ⟨a, b, c, hds, h1, h2, h3⟩ := pipeline_P eng s i
  refine ⟨rfl, ?_, ?_, ?_, ?_⟩
  · rw [apply_delta_eq, hds]; rfl
  · rintro ⟨hl, hr⟩
    rw [apply_new_state_eq, apply_delta_eq, hds]
    show TraitDriftEngine.clipQ eng.limit (TraitDriftEngine.pipeline eng s i).1.calm =
      s.calm + deltaGet [("calm", a), ("empathy", b), ("curiosity", c)] "calm"
    rw [hlim, clipQ_id _ hl hr, h1]
    simp [deltaGet]
  · rintro ⟨hl, hr⟩
    rw [apply_new_state_eq, apply_delta_eq, hds]
    show TraitDriftEngine.clipQ eng.limit (TraitDriftEngine.pipeline eng s i).1.empathy =
      s.empathy + deltaGet [("calm", a), ("empathy", b), ("curiosity", c)] "empathy"
    rw [hlim, clipQ_id _ hl hr, h2]
    simp [deltaGet]
  · rintro ⟨hl, hr⟩
    rw [apply_new_state_eq, apply_delta_eq, hds]
    show TraitDriftEngine.clipQ eng.limit (TraitDriftEngine.pipeline eng s i).1.curiosity =
      s.curiosity + deltaGet [("calm", a), ("empathy", b), ("curiosity", c)] "curiosity"
    rw [hlim, clipQ_id _ hl hr, h3]
    simp [deltaGet]

/-- C10 witness: the default engine on the idle input from the neutral
state. -/
theorem apply_delta_contract_witness :
    defaultTraitDriftEngine.limit = 1 ∧
    ((TraitDriftEngine.apply defaultTraitDriftEngine zeroTraitState
        idleInput).current_after = zeroTraitState ∧
     (TraitDriftEngine.apply defaultTraitDriftEngine zeroTraitState
        idleInput).result.delta.map Prod.fst =
          ["calm", "empathy", "curiosity"] ∧
     ((-1 ≤ (TraitDriftEngine.pipeline defaultTraitDriftEngine zeroTraitState
          idleInput).1.calm ∧
        (TraitDriftEngine.pipeline defaultTraitDriftEngine zeroTraitState
          idleInput).1.calm ≤ 1) →
       (TraitDriftEngine.apply defaultTraitDriftEngine zeroTraitState
          idleInput).result.new_state.calm =
         zeroTraitState.calm + deltaGet (TraitDriftEngine.apply
           defaultTraitDriftEngine zeroTraitState idleInput).result.delta
           "calm") ∧
     ((-1 ≤ (TraitDriftEngine.pipeline defaultTraitDriftEngine zeroTraitState
          idleInput).1.empathy ∧
        (TraitDriftEngine.pipeline defaultTraitDriftEngine zeroTraitState
          idleInput).1.empathy ≤ 1) →
       (TraitDriftEngine.apply defaultTraitDriftEngine zeroTraitState
          idleInput).result.new_state.empathy =
         zeroTraitState.empathy + deltaGet (TraitDriftEngine.apply
           defaultTraitDriftEngine zeroTraitState idleInput).result.delta
           "empathy") ∧
     ((-1 ≤ (TraitDriftEngine.pipeline defaultTraitDriftEngine zeroTraitState
          idleInput).1.curiosity ∧
        (TraitDriftEngine.pipeline defaultTraitDriftEngine zeroTraitState
          idleInput).1.curiosity ≤ 1) →
       (TraitDriftEngine.apply defaultTraitDriftEngine zeroTraitState
          idleInput).result.new_state.curiosity =
         zeroTraitState.curiosity + deltaGet (TraitDriftEngine.apply
           defaultTraitDriftEngine zeroTraitState idleInput).result.delta
           "curiosity")) :=
  ⟨rfl, apply_delta_contract defaultTraitDriftEngine zeroTraitState idleInput
    rfl⟩

/-- C6: whenever the memory backend's `fetch_recent` raises (modelled as
`backend = none`), `SelectiveRecall.recall` returns the empty pointer
list; the embedding in `Option` shows that no exception escapes. -/
theorem recall_backend_failure_empty (cfg : RecallConfig) (embed : EmbedModel)
    (req : PersonaRequest) :
    SelectiveRecall.recall cfg embed none req = [] := by
  simp [SelectiveRecall.recall, SelectiveRecall.collect_candidates,
    SelectiveRecall.rank_and_select]

/-- C7: when Candidate Recall returns no pointers, or the Ambiguity
Resolver discards every pointer, `MemoryOrchestrator.select_for_request`
returns an empty pointer list with `merged_summary = none`, and the
Episode Merger is not invoked (second component `false`). -/
theorem select_for_request_short_circuit (rcfg : RecallConfig)
    (acfg : AmbiguityConfig) (embed : EmbedModel)
    (backend : Option (List Episode)) (merger : Merger) (req : PersonaRequest)
    (h : SelectiveRecall.recall rcfg embed backend req = [] ∨
      (AmbiguityResolver.resolve acfg embed req
        (SelectiveRecall.recall rcfg embed backend req)).resolved_pointers = []) :
    MemoryOrchestrator.select_for_request rcfg acfg embed backend merger req =
      ({ pointers := [], merged_summary := none }, false) := by
  unfold MemoryOrchestrator.select_for_request
  rcases h with h | h
  · simp [h]
  · by_cases hp : SelectiveRecall.recall rcfg embed backend req = []
    · simp [hp]
    · simp [hp, h]

/-- C7 witness: a raising backend gives no candidates, and the orchestrator
short-circuits without invoking the merger. -/
theorem select_for_request_short_circuit_witness :
    (SelectiveRecall.recall defaultRecallConfig zeroEmbed none sampleReq = [] ∨
      (AmbiguityResolver.resolve defaultAmbiguityConfig zeroEmbed sampleReq
        (SelectiveRecall.recall defaultRecallConfig zeroEmbed none
          sampleReq)).resolved_pointers = []) ∧
    MemoryOrchestrator.select_for_request defaultRecallConfig
      defaultAmbiguityConfig zeroEmbed none constMerger sampleReq =
      ({ pointers := [], merged_summary := none }, false) :=
  ⟨Or.inl rfl,
   select_for_request_short_circuit defaultRecallConfig defaultAmbiguityConfig
     zeroEmbed none constMerger sampleReq (Or.inl rfl)⟩

/-- C9 counterexample: called with a database that implements
`store_trait_snapshot` (as the controller passes), a single
`TraitDriftEngine.apply` call appends a trait snapshot itself: the
persona-database state after the call differs from the state before it. -/
theorem apply_writes_snapshot_cex :
    (TraitDriftEngine.apply defaultTraitDriftEngine zeroTraitState
      dbInput).db_after ≠ dbInput.db ∧
    ((TraitDriftEngine.apply defaultTraitDriftEngine zeroTraitState
      dbInput).db_after.map fun d => d.trait_snapshots.length) = some 1 ∧
    (dbInput.db.map fun d => d.trait_snapshots.length) = some 0 := by
  have h1 : ((TraitDriftEngine.apply defaultTraitDriftEngine zeroTraitState
      dbInput).db_after.map fun d => d.trait_snapshots.length) = some 1 := by
    simp [TraitDriftEngine.apply, TraitDriftEngine.store_snapshot_if_supported,
      dbInput, idleInput, supportDB]
  have h0 : (dbInput.db.map fun d => d.trait_snapshots.length) = some 0 := by
    simp [dbInput, idleInput, supportDB]
  refine ⟨?_, h1, h0⟩
  intro heq
  rw [heq, h0] at h1
  exact absurd (Option.some.inj h1) (by norm_num)

/-- C9 amended: `TraitDriftEngine.apply` never reads the database and
leaves it untouched when `db` is `None` or lacks `store_trait_snapshot`
(then snapshotting is the caller's job), and its drift result is a pure
function of `(current, turn_inputs)`, independent of the database handle
and user id; but when a db implementing `store_trait_snapshot` is passed —
as `PersonaController.handle_turn` does — the call itself appends a trait
snapshot to the database. -/
theorem apply_no_db_write_when_unsupported (eng : TraitDriftEngine)
    (s : TraitState) (i : TraitTurnInput)
    (h : (i.db.map fun d => d.supports_trait_snapshot).getD false = false) :
    (TraitDriftEngine.apply eng s i).db_after = i.db ∧
    (TraitDriftEngine.apply eng s i).result =
      (TraitDriftEngine.apply eng s
        { i with db := none, user_id := none }).result := by
  constructor
  · cases hdb : i.db with
    | none =>
        simp [TraitDriftEngine.apply,
          TraitDriftEngine.store_snapshot_if_supported, hdb]
    | some d =>
        rw [hdb] at h
        simp at h
        simp [TraitDriftEngine.apply,
          TraitDriftEngine.store_snapshot_if_supported, hdb, h]
  · rfl

/-- C9 amended witness: with `db=None` the database is untouched and the
result coincides with the pure call. -/
theorem apply_no_db_write_when_unsupported_witness :
    ((idleInput.db.map fun d => d.supports_trait_snapshot).getD false
      = false) ∧
    ((TraitDriftEngine.apply defaultTraitDriftEngine zeroTraitState
        idleInput).db_after = idleInput.db ∧
     (TraitDriftEngine.apply defaultTraitDriftEngine zeroTraitState
        idleInput).result =
       (TraitDriftEngine.apply defaultTraitDriftEngine zeroTraitState
         { idleInput with db := none, user_id := none }).result) :=
  ⟨rfl, apply_no_db_write_when_unsupported defaultTraitDriftEngine
    zeroTraitState idleInput rfl⟩

theorem rerank_eq_nil (cfg : AmbiguityConfig) (embed : EmbedModel)
    (req : PersonaRequest) (pointers : List MemoryPointer)
    (hsim : ∀ p ∈ pointers,
      AmbiguityResolver.rerank_sim embed req p < cfg.min_similarity) :
    AmbiguityResolver.rerank cfg embed req pointers = [] := by
  unfold AmbiguityResolver.rerank
  by_cases hp : pointers.isEmpty
  · simp [hp]
  · have hnil : (pointers.filterMap fun p =>
        if AmbiguityResolver.rerank_sim embed req p < cfg.min_similarity then
          none
        else
          some { episode_id := p.episode_id, source := p.source,
                 score := AmbiguityResolver.rerank_sim embed req p,
                 summary := p.summary }) = ([] : List MemoryPointer) := by
      rw [List.filterMap_eq_nil_iff]
      intro p hmem
      rw [if_pos (hsim p hmem)]
    simp [hp, hnil, sortDescBy]

/-- C8 (amended): for every message in which a vague-reference marker is
detected, if the recomputed similarity of every candidate lies below the
minimum-similarity threshold, `AmbiguityResolver.resolve` returns — as a
normal result, not an exception — an empty resolved list, all input
pointers as discarded, and the reason
"ambiguity detected but no relevant memory". -/
theorem resolve_all_eliminated (cfg : AmbiguityConfig) (embed : EmbedModel)
    (req : PersonaRequest) (pointers : List MemoryPointer)
    (hdet : AmbiguityResolver.detect_ambiguity req.message = true)
    (hsim : ∀ p ∈ pointers,
      AmbiguityResolver.rerank_sim embed req p < cfg.min_similarity) :
    AmbiguityResolver.resolve cfg embed req pointers =
      { resolved_pointers := [], discarded_pointers := pointers,
        reason := some "ambiguity detected but no relevant memory" } := by
  unfold AmbiguityResolver.resolve
  rw [rerank_eq_nil cfg embed req pointers hsim]
  simp [hdet]

/-- C8 counterexample: at a message containing a vague marker, with a
similarity model that eliminates every candidate, `resolve` returns the
empty resolved list and discards everything, but its reason string is
"ambiguity detected but no relevant memory" — not the claimed
"ambiguity detected, no relevant memory". -/
theorem resolve_reason_cex :
    AmbiguityResolver.detect_ambiguity vagueReq.message = true ∧
    AmbiguityResolver.rerank_sim zeroEmbed vagueReq vaguePointer <
      defaultAmbiguityConfig.min_similarity ∧
    (AmbiguityResolver.resolve defaultAmbiguityConfig zeroEmbed vagueReq
      [vaguePointer]).resolved_pointers = [] ∧
    (AmbiguityResolver.resolve defaultAmbiguityConfig zeroEmbed vagueReq
      [vaguePointer]).discarded_pointers = [vaguePointer] ∧
    (AmbiguityResolver.resolve defaultAmbiguityConfig zeroEmbed vagueReq
      [vaguePointer]).reason =
        some "ambiguity detected but no relevant memory" ∧
    (AmbiguityResolver.resolve defaultAmbiguityConfig zeroEmbed vagueReq
      [vaguePointer]).reason ≠
        some "ambiguity detected, no relevant memory" := by
  have hdet : AmbiguityResolver.detect_ambiguity vagueReq.message = true := by
    decide
  have hsim : AmbiguityResolver.rerank_sim zeroEmbed vagueReq vaguePointer <
      defaultAmbiguityConfig.min_similarity := by
    norm_num [AmbiguityResolver.rerank_sim, zeroEmbed, vaguePointer,
      vagueReq, defaultAmbiguityConfig]
  have heval : AmbiguityResolver.resolve defaultAmbiguityConfig zeroEmbed
      vagueReq [vaguePointer] =
      { resolved_pointers := [], discarded_pointers := [vaguePointer],
        reason := some "ambiguity detected but no relevant memory" } := by
    unfold AmbiguityResolver.resolve
    rw [rerank_eq_nil defaultAmbiguityConfig zeroEmbed vagueReq [vaguePointer]
      (by intro p hp; rw [List.mem_singleton.mp hp]; exact hsim)]
    simp [hdet]
  rw [heval]
  exact ⟨hdet, hsim, rfl, rfl, rfl, by decide⟩

/-- C8 witness: the counterexample inputs satisfy the amended theorem. -/
theorem resolve_all_eliminated_witness :
    (AmbiguityResolver.detect_ambiguity vagueReq.message = true ∧
     (∀ p ∈ [vaguePointer], AmbiguityResolver.rerank_sim zeroEmbed vagueReq p <
       defaultAmbiguityConfig.min_similarity)) ∧
    AmbiguityResolver.resolve defaultAmbiguityConfig zeroEmbed vagueReq
      [vaguePointer] =
      { resolved_pointers := [], discarded_pointers := [vaguePointer],
        reason := some "ambiguity detected but no relevant memory" } :=
  ⟨⟨by decide,
    by
      intro p hp
      rw [List.mem_singleton.mp hp]
      norm_num [AmbiguityResolver.rerank_sim, zeroEmbed, vaguePointer,
        vagueReq, defaultAmbiguityConfig]⟩,
   resolve_all_eliminated defaultAmbiguityConfig zeroEmbed vagueReq
     [vaguePointer] (by decide)
     (by
       intro p hp
       rw [List.mem_singleton.mp hp]
       norm_num [AmbiguityResolver.rerank_sim, zeroEmbed, vaguePointer,
         vagueReq, defaultAmbiguityConfig])⟩

/-- C5 counterexample: permuting the backend's episode list changes the
returned top-K id set.  With the default configuration (recency bias on)
two episodes of identical similarity 0.10 land on opposite sides of the
0.12 threshold depending on their position; with recency off and
`top_k = 1`, two tied episodes are cut by input order. -/
theorem recall_order_sensitive_cex :
    List.Perm [epA, epB] [epB, epA] ∧
    ((SelectiveRecall.recall defaultRecallConfig constEmbed
      (some [epA, epB]) sampleReq).map fun p => p.episode_id) = ["a"] ∧
    ((SelectiveRecall.recall defaultRecallConfig constEmbed
      (some [epB, epA]) sampleReq).map fun p => p.episode_id) = ["b"] ∧
    ((SelectiveRecall.recall tieConfig constEmbed2
      (some [epA, epB]) sampleReq).map fun p => p.episode_id) = ["a"] ∧
    ((SelectiveRecall.recall tieConfig constEmbed2
      (some [epB, epA]) sampleReq).map fun p => p.episode_id) = ["b"] := by
  refine ⟨List.Perm.swap epB epA [], ?_, ?_, ?_, ?_⟩ <;>
    · norm_num [SelectiveRecall.recall, SelectiveRecall.collect_candidates,
        SelectiveRecall.base_score, SelectiveRecall.rank_and_select,
        sortDescBy, insertDescBy, List.enum, List.enumFrom, constEmbed,
        constEmbed2, epA, epB, sampleReq, defaultRecallConfig, tieConfig]
      simp

theorem filterMap_enumFrom_snd {α β : Type} (g : α → Option β) :
    ∀ (n : ℕ) (l : List α),
      (List.enumFrom n l).filterMap (fun p => g p.2) = l.filterMap g := by
  intro n l
  induction l generalizing n with
  | nil => rfl
  | cons a t ih => simp [List.enumFrom, List.filterMap_cons, ih]

theorem collect_candidates_no_recency (cfg : RecallConfig)
    (embed : EmbedModel) (req : PersonaRequest) (episodes : List Episode)
    (hrec : cfg.use_recency = false) :
    SelectiveRecall.collect_candidates cfg embed (some episodes) req =
      episodes.filterMap (fun ep =>
        if ep.episode_id = "" then none
        else some { episode_id := ep.episode_id, text := ep.summary,
                    score := SelectiveRecall.base_score cfg embed req ep }) := by
  unfold SelectiveRecall.collect_candidates
  simp only [hrec, Bool.false_eq_true, if_false]
  rw [show List.enum episodes = List.enumFrom 0 episodes from rfl]
  exact filterMap_enumFrom_snd (fun ep : Episode =>
    if ep.episode_id = "" then (none : Option RecallCandidate)
    else some ({ episode_id := ep.episode_id, text := ep.summary,
                 score := SelectiveRecall.base_score cfg embed req ep } :
      RecallCandidate)) 0 episodes

theorem rank_and_select_perm_eq (cfg : RecallConfig)
    {c₁ c₂ : List RecallCandidate} (hp : List.Perm c₁ c₂)
    (hd : c₁.Pairwise (fun a b => a.score ≠ b.score)) :
    SelectiveRecall.rank_and_select cfg c₁ =
      SelectiveRecall.rank_and_select cfg c₂ := by
  unfold SelectiveRecall.rank_and_select
  have hsort : sortDescBy (fun c => c.score) c₁ =
      sortDescBy (fun c => c.score) c₂ :=
    sortDescBy_keys_eq (fun c => c.score) hp hd
  by_cases h1 : c₁.isEmpty = true
  · have h2 : c₂.isEmpty = true := by
      rw [List.isEmpty_iff] at h1 ⊢
      rw [h1] at hp
      exact hp.nil_eq.symm
    simp [h1, h2]
  · have h2 : ¬ c₂.isEmpty = true := by
      intro hc
      apply h1
      rw [List.isEmpty_iff] at hc ⊢
      rw [hc] at hp
      exact hp.symm.nil_eq.symm
    rw [if_neg h1, if_neg h2, hsort]

/-- C5 (amended): with the recency bias disabled and an injective score
function over the backend's episodes, Candidate Recall is
order-insensitive: for every episode list and every permutation of it
the returned pointer list — hence the top-K id set — is identical.  (With
the default recency bias, or with tied scores at the top-K cut, the id
set depends on the backend order; see the counterexample.) -/
theorem recall_order_insensitive (cfg : RecallConfig) (embed : EmbedModel)
    (req : PersonaRequest) (l₁ l₂ : List Episode)
    (hrec : cfg.use_recency = false)
    (hperm : List.Perm l₁ l₂)
    (hdist : l₁.Pairwise (fun e₁ e₂ =>
      SelectiveRecall.base_score cfg embed req e₁ ≠
        SelectiveRecall.base_score cfg embed req e₂)) :
    SelectiveRecall.recall cfg embed (some l₁) req =
      SelectiveRecall.recall cfg embed (some l₂) req := by
  unfold SelectiveRecall.recall
  rw [collect_candidates_no_recency cfg embed req l₁ hrec,
    collect_candidates_no_recency cfg embed req l₂ hrec]
  apply rank_and_select_perm_eq
  · exact hperm.filterMap _
  · rw [List.pairwise_filterMap]
    refine List.Pairwise.imp ?_ hdist
    intro e₁ e₂ h c hc d hd
    by_cases h1 : e₁.episode_id = ""
    · simp [h1] at hc
    · by_cases h2 : e₂.episode_id = ""
      · simp [h2] at hd
      · simp only [h1, h2, if_false, Option.mem_def, Option.some.injEq] at hc hd
        rw [← hc, ← hd]
        exact h

/-- C5 witness: two episodes with distinct scores, recency off — the two
orders produce identical recall output. -/
theorem recall_order_insensitive_witness :
    (norecConfig.use_recency = false ∧ List.Perm [epA, epC] [epC, epA] ∧
     List.Pairwise (fun e₁ e₂ =>
       SelectiveRecall.base_score norecConfig caseEmbed sampleReq e₁ ≠
         SelectiveRecall.base_score norecConfig caseEmbed sampleReq e₂)
       [epA, epC]) ∧
    SelectiveRecall.recall norecConfig caseEmbed (some [epA, epC]) sampleReq =
      SelectiveRecall.recall norecConfig caseEmbed (some [epC, epA])
        sampleReq :=
  ⟨⟨rfl, List.Perm.swap epC epA [],
    by
      simp [List.pairwise_cons, SelectiveRecall.base_score, caseEmbed,
        epA, epC, sampleReq, norecConfig]
      norm_num⟩,
   recall_order_insensitive norecConfig caseEmbed sampleReq [epA, epC]
     [epC, epA] rfl (List.Perm.swap epC epA [])
     (by
       simp [List.pairwise_cons, SelectiveRecall.base_score, caseEmbed,
         epA, epC, sampleReq, norecConfig]
       norm_num)⟩
